import Mathlib

/-!
Verification of the SYMBIONT-X orchestrator core (workflow engine, HITL
approval subsystem, audit log) against its natural-language specification.

The definitions below are a shallow embedding of the Python sources under
`src/src/agents/orchestrator/`:
  * `models.py`        — enums and aggregates (Workflow, WorkflowStep),
  * `hitl_models.py`   — ApprovalRequest, AuditLogEntry,
  * `config.py`        — Settings with its defaults,
  * `state_manager.py` — in-memory workflow store,
  * `workflow_engine.py` — the stage functions and the per-workflow
    execution unit,
  * `agent_client.py`  — poll_scan_completion,
  * `hitl_api.py`      — create/list/decide approval endpoints,
  * `audit_log.py`     — AuditLogService.log,
  * `main.py`          — the /approve and /workflow/{id}/cancel endpoints.

Modelling conventions:
  * Python `datetime.utcnow()` timestamps are a `now : Nat` parameter
    (seconds); only their presence and ordering matter to the claims.
  * JSON dictionaries exchanged with collaborators become structures whose
    `Option` fields model key presence (`none` = key absent); Python
    `d.get(k, default)` becomes `Option.getD`.  Python `"error" in d`
    becomes `Option.isSome`.
  * The engine, state manager and HITL store share Python objects by
    reference; workflows live in one in-memory dict.  Since every mutation
    of a workflow object is immediately visible through the store, the
    embedding threads a single `Workflow` value through the stage
    functions and re-saves it, which is observationally the same.
  * Collaborator HTTP responses are oracle inputs (`Oracle`); the calls
    the engine issues to the remediation collaborator are recorded as a
    list of submitted batches, the engine's only outbound effect relevant
    to the claims.
  * `workflow_engine.py` imports neither `audit_log` nor `hitl_api`; in
    the process-level state (`ProcessState`) the engine therefore leaves
    the audit log and the approvals store untouched, exactly as in the
    source.
-/

/-! ## Enums (`models.py`, `hitl_models.py`) -/

/-- Source `models.WorkflowStatus`.  Workflow steps reuse this same enum for their
own status (there is no separate step-status enum, and no `IN_PROGRESS`
value; the engine uses `SCANNING` as its in-progress marker). -/
inductive WorkflowStatus where
  | pending
  | scanning
  | assessing
  | awaiting_approval
  | remediating
  | completed
  | failed
  | cancelled
  deriving DecidableEq, Repr

/-- Source `models.WorkflowAction`. -/
inductive WorkflowAction where
  | scan
  | assess
  | auto_remediate
  | request_approval
  | notify
  | complete
  deriving DecidableEq, Repr

/-- Source `hitl_models.ApprovalStatus`. -/
inductive ApprovalStatus where
  | pending
  | approved
  | rejected
  | expired
  deriving DecidableEq, Repr

/-- Source `hitl_models.ApprovalType`. -/
inductive ApprovalType where
  | remediation
  | deployment
  | exception
  | escalation
  deriving DecidableEq, Repr

/-- Source `hitl_models.AuditAction`. -/
inductive AuditAction where
  | scan_started
  | scan_completed
  | vulnerability_detected
  | assessment_completed
  | approval_requested
  | approval_granted
  | approval_denied
  | remediation_started
  | remediation_completed
  | remediation_failed
  | comment_added
  | exception_granted
  | workflow_completed
  deriving DecidableEq, Repr

/-! ## Payload structures -/

/-- The vulnerability dictionaries the engine builds and forwards
(`workflow_engine._execute_remediation_decisions` builds objects with keys
id/cve_id/title/severity/priority/cvss_score; `approve_remediation` builds
objects without the last two keys — those are `none` there). -/
structure Vuln where
  id : Option String := none
  cve_id : Option String := none
  title : Option String := none
  severity : Option String := none
  priority : Option String := none
  cvss_score : Option String := none
  deriving DecidableEq, Repr

/-- The `risk_score` sub-dictionary of an assessment, of which the engine
only reads `priority`. -/
structure RiskScore where
  priority : Option String := none
  deriving DecidableEq, Repr

/-- An assessment dictionary returned by the assessment collaborator; the
engine reads `risk_score.priority`, `vulnerability_id`, `cve_id`, `title`,
`severity` and `cvss_score`. -/
structure Assessment where
  vulnerability_id : Option String := none
  risk_score : Option RiskScore := none
  cve_id : Option String := none
  title : Option String := none
  severity : Option String := none
  cvss_score : Option String := none
  deriving DecidableEq, Repr

/-- Source `assessment.get("risk_score", {}).get("priority", "P2")`. -/
def assessmentPriority (a : Assessment) : String :=
  match a.risk_score with
  | none => "P2"
  | some rs => rs.priority.getD "P2"

/-- The `summary` dictionary of the assessment response; the engine reads
`summary.get("P0", 0)` and `summary.get("P1", 0)`. -/
structure Summary where
  P0 : Nat := 0
  P1 : Nat := 0
  deriving DecidableEq, Repr

/-- The `output_data` dictionaries attached to steps by the engine.  Each
constructor is one of the concrete dictionary shapes built in
`workflow_engine.py` (all of them non-empty, so the truthiness test
`if output_data:` in `state_manager.update_step` is satisfied whenever a
value is passed). -/
inductive StepOutput where
  | scanOut (scan_id : Option String) (vulnerability_count : Nat)
      (vulnerabilities : List Vuln)
  | assessEmpty (message : String)
  | assessOut (assessment_id : Option String) (assessments : List Assessment)
      (summary : Summary)
  | remediateOut (auto_remediated : Nat) (awaiting_approval : Nat)
  deriving DecidableEq, Repr

/-- Source `output_data.get("vulnerabilities", [])`. -/
def StepOutput.getVulnerabilities : StepOutput → List Vuln
  | .scanOut _ _ vs => vs
  | _ => []

/-- Source `output_data.get("assessments", [])`. -/
def StepOutput.getAssessments : StepOutput → List Assessment
  | .assessOut _ as _ => as
  | _ => []

/-! ## Workflow aggregate (`models.py`) -/

/-- Source `models.WorkflowStep`. -/
structure WorkflowStep where
  step_id : String
  action : WorkflowAction
  status : WorkflowStatus := .pending
  agent : Option String := none
  output_data : Option StepOutput := none
  error_message : Option String := none
  started_at : Option Nat := none
  completed_at : Option Nat := none
  deriving DecidableEq, Repr

/-- The `metadata` dictionary `start_workflow` stores on the workflow.  It
always contains these three keys, so the engine's
`metadata.get("auto_remediate", True)` / `metadata.get("notify", True)`
reads are plain field accesses. -/
structure Metadata where
  scan_types : List String := []
  auto_remediate : Bool := true
  notify : Bool := true
  deriving DecidableEq, Repr

/-- Source `models.Workflow`. -/
structure Workflow where
  workflow_id : String
  repository : String
  branch : String := "main"
  status : WorkflowStatus := .pending
  current_step : Option String := none
  steps : List WorkflowStep := []
  scan_id : Option String := none
  assessment_id : Option String := none
  remediation_ids : List String := []
  total_vulnerabilities : Nat := 0
  critical_count : Nat := 0
  high_count : Nat := 0
  auto_remediated : Nat := 0
  awaiting_approval : Nat := 0
  created_at : Nat := 0
  updated_at : Nat := 0
  completed_at : Option Nat := none
  triggered_by : String := "manual"
  metadata : Metadata := {}
  deriving DecidableEq, Repr

/-- Source `config.Settings`, with the source defaults (`config.py` lines 40–46). -/
structure Settings where
  auto_remediate_p3_p4 : Bool := true
  auto_remediate_p2 : Bool := false
  require_approval_p0_p1 : Bool := true
  agent_timeout_seconds : Nat := 300
  workflow_timeout_seconds : Nat := 600
  deriving DecidableEq, Repr

/-! ## Collaborator responses (oracle inputs) -/

/-- Response of `agent_client.trigger_scan`: either a dictionary
containing an `error` key or the scanner's response with a `scan_id`. -/
structure TriggerScanResponse where
  error : Option String := none
  scan_id : Option String := none
  deriving DecidableEq, Repr

/-- One element of the `results` list of a scan result; the engine only
reads its `vulnerabilities` list (`_extract_vulnerabilities`). -/
structure ScanResultItem where
  vulnerabilities : List Vuln := []
  deriving DecidableEq, Repr

/-- A scan-status response (`agent_client.get_scan_results` /
`poll_scan_completion`): `status` defaults to "unknown" via
`result.get("status", "unknown")`. -/
structure ScanPollResponse where
  status : String := "unknown"
  error : Option String := none
  results : List ScanResultItem := []
  deriving DecidableEq, Repr

/-- Response of `agent_client.assess_vulnerabilities`. -/
structure AssessResponse where
  error : Option String := none
  assessment_id : Option String := none
  assessments : List Assessment := []
  summary : Summary := {}
  deriving DecidableEq, Repr

/-- Response of `agent_client.remediate_batch`. -/
structure RemediateBatchResponse where
  error : Option String := none
  fixes_generated : Nat := 0
  batch_id : Option String := none
  deriving DecidableEq, Repr

/-! ## Generic string-keyed store (Python dict by insertion order) -/

/-- Python dict assignment `store[key] = v`: replace the existing binding
in place, else append. -/
def storePut {α : Type} (key : String) (v : α) :
    List (String × α) → List (String × α)
  | [] => [(key, v)]
  | p :: rest => if p.1 = key then (key, v) :: rest else p :: storePut key v rest

/-- Python `store.get(key)`. -/
def storeGet {α : Type} (key : String) (s : List (String × α)) : Option α :=
  (s.find? (fun p => p.1 = key)).map (·.2)

/-! ## State manager (`state_manager.py`, in-memory backend) -/

/-- Source `state_manager.StateManager` with the in-memory dict backend (the
Cosmos DB branch is configured off by default: `cosmos_endpoint = None`). -/
structure StateManager where
  workflows : List (String × Workflow) := []
  deriving DecidableEq, Repr

/-- Source `StateManager.get_workflow` (in-memory fallback). -/
def StateManager.get_workflow (sm : StateManager) (workflow_id : String) :
    Option Workflow :=
  storeGet workflow_id sm.workflows

/-- Source `StateManager._save_workflow` (in-memory). -/
def StateManager.save_workflow (sm : StateManager) (w : Workflow) : StateManager :=
  { sm with workflows := storePut w.workflow_id w sm.workflows }

/-- Source `state_manager.create_workflow`: the aggregate with the five canonical
steps, all `PENDING`, and `current_step = "scan"`. -/
def create_workflow (workflow_id repository branch triggered_by : String)
    (metadata : Metadata) (now : Nat) : Workflow :=
  { workflow_id := workflow_id
    repository := repository
    branch := branch
    status := .pending
    current_step := some "scan"
    steps :=
      [ { step_id := "scan", action := .scan, agent := some "security-scanner" },
        { step_id := "assess", action := .assess, agent := some "risk-assessment" },
        { step_id := "decide", action := .auto_remediate, agent := some "orchestrator" },
        { step_id := "remediate", action := .auto_remediate, agent := some "auto-remediation" },
        { step_id := "complete", action := .complete, agent := some "orchestrator" } ]
    created_at := now
    updated_at := now
    triggered_by := triggered_by
    metadata := metadata }

/-- Python truthiness of the `error_message` argument in
`state_manager.update_step` (`if error_message:`): an empty string is
falsy, so it is not stored. -/
def truthyStr : Option String → Bool
  | none => false
  | some s => s ≠ ""

/-- Update the first list element whose `step_id` matches (the
`for ... break` loop in `state_manager.update_step`). -/
def updateFirstStep (step_id : String) (f : WorkflowStep → WorkflowStep) :
    List WorkflowStep → List WorkflowStep
  | [] => []
  | s :: rest =>
    if s.step_id = step_id then f s :: rest
    else s :: updateFirstStep step_id f rest

/-- The per-step mutation performed by `state_manager.update_step`:
status always; `output_data` when passed (all passed dictionaries are
non-empty, cf. `StepOutput`); `error_message` only when truthy;
`started_at` on `SCANNING`; `completed_at` on `COMPLETED`/`FAILED`. -/
def applyStepUpdate (status : WorkflowStatus) (output_data : Option StepOutput)
    (error_message : Option String) (now : Nat) (s : WorkflowStep) : WorkflowStep :=
  let s1 := { s with status := status }
  let s2 := match output_data with
            | some od => { s1 with output_data := some od }
            | none => s1
  let s3 := if truthyStr error_message then { s2 with error_message := error_message }
            else s2
  if status = .scanning then { s3 with started_at := some now }
  else if status = .completed ∨ status = .failed then { s3 with completed_at := some now }
  else s3

/-- Source `state_manager.update_step` on the shared workflow object, including
the trailing `update_workflow` (which stamps `updated_at`). -/
def update_step (w : Workflow) (step_id : String) (status : WorkflowStatus)
    (output_data : Option StepOutput) (error_message : Option String)
    (now : Nat) : Workflow :=
  { w with
    steps := updateFirstStep step_id
      (applyStepUpdate status output_data error_message now) w.steps
    updated_at := now }

/-- Source `next((s for s in workflow.steps if s.step_id == sid), None)`. -/
def findStep (w : Workflow) (sid : String) : Option WorkflowStep :=
  w.steps.find? (fun s => s.step_id = sid)

/-! ## Workflow engine stage functions (`workflow_engine.py`) -/

/-- Source `workflow_engine._extract_vulnerabilities`: flatten the
`vulnerabilities` lists of all result items. -/
def extract_vulnerabilities (final_result : ScanPollResponse) : List Vuln :=
  (final_result.results.map ScanResultItem.vulnerabilities).flatten

/-- Source `workflow_engine._execute_scan` (lines 109–182).  `scan_result` is the
trigger response, `final_result` the outcome of `poll_scan_completion`. -/
def execute_scan (w : Workflow) (scan_result : TriggerScanResponse)
    (final_result : ScanPollResponse) (now : Nat) : Workflow :=
  let w := { w with status := .scanning }
  let w := update_step w "scan" .scanning none none now
  if scan_result.error.isSome then
    let w := { w with status := .failed }
    update_step w "scan" .failed none scan_result.error now
  else
    let w := { w with scan_id := scan_result.scan_id }
    if final_result.status = "completed" then
      let vulnerabilities := extract_vulnerabilities final_result
      let w := { w with total_vulnerabilities := vulnerabilities.length }
      update_step w "scan" .completed
        (some (.scanOut scan_result.scan_id vulnerabilities.length vulnerabilities))
        none now
    else
      let w := { w with status := .failed }
      update_step w "scan" .failed none
        (some (final_result.error.getD "Scan failed")) now

/-- Source `workflow_engine._execute_assessment` (lines 184–263).  Note the
source marks the in-progress assess step with `SCANNING` ("Using SCANNING
as in progress"), and that the two early-failure returns leave the assess
step in whatever state it already has. -/
def execute_assessment (w : Workflow) (assessment_result : AssessResponse)
    (now : Nat) : Workflow :=
  let w := { w with status := .assessing }
  let w := update_step w "assess" .scanning none none now
  match findStep w "scan" with
  | none => { w with status := .failed }
  | some scan_step =>
    match scan_step.output_data with
    | none => { w with status := .failed }
    | some od =>
      let vulnerabilities := od.getVulnerabilities
      if vulnerabilities = [] then
        update_step w "assess" .completed (some (.assessEmpty "No vulnerabilities"))
          none now
      else if assessment_result.error.isSome then
        let w := { w with status := .failed }
        update_step w "assess" .failed none assessment_result.error now
      else
        let w := { w with
          assessment_id := assessment_result.assessment_id
          critical_count := assessment_result.summary.P0
          high_count := assessment_result.summary.P1 }
        update_step w "assess" .completed
          (some (.assessOut assessment_result.assessment_id
            assessment_result.assessments assessment_result.summary)) none now

/-- The vulnerability object the decision loop builds for remediation
(`workflow_engine.py` lines 300–307). -/
def buildVuln (a : Assessment) : Vuln :=
  { id := a.vulnerability_id
    cve_id := a.cve_id
    title := a.title
    severity := a.severity
    priority := some (assessmentPriority a)
    cvss_score := a.cvss_score }

/-- The decision loop of `_execute_remediation_decisions` (lines 295–322):
returns `(to_auto_remediate, to_await_approval)` in source order.  A
`P3`/`P4` assessment whose policy test fails is appended to neither list,
and so is one whose priority label is outside `P0`–`P4`. -/
def routeDecisions (st : Settings) (auto_remediate_config : Bool) :
    List Assessment → List Vuln × List Vuln
  | [] => ([], [])
  | a :: rest =>
    let priority := assessmentPriority a
    let vuln := buildVuln a
    let (autoRest, waitRest) := routeDecisions st auto_remediate_config rest
    if priority = "P0" ∨ priority = "P1" then
      if st.require_approval_p0_p1 then (autoRest, vuln :: waitRest)
      else (vuln :: autoRest, waitRest)
    else if priority = "P2" then
      if st.auto_remediate_p2 then (vuln :: autoRest, waitRest)
      else (autoRest, vuln :: waitRest)
    else if priority = "P3" ∨ priority = "P4" then
      if st.auto_remediate_p3_p4 && auto_remediate_config then
        (vuln :: autoRest, waitRest)
      else (autoRest, waitRest)
    else (autoRest, waitRest)

/-- Source `workflow_engine._execute_remediation_decisions` (lines 265–367).
Returns the updated workflow and the batches submitted to the remediation
collaborator (`remediate_batch` is called once iff `to_auto_remediate` is
non-empty).  Notification dispatch (`_send_notification`) has no
observable effect on this state (it is a logging TODO in the source). -/
def execute_remediation_decisions (st : Settings) (w : Workflow)
    (remediation_result : RemediateBatchResponse) (now : Nat) :
    Workflow × List (List Vuln) :=
  let w := { w with status := .remediating }
  match findStep w "assess" with
  | none => (w, [])
  | some assess_step =>
    match assess_step.output_data with
    | none => (w, [])
    | some od =>
      let assessments := od.getAssessments
      if assessments = [] then (w, [])
      else
        let auto_remediate_config := w.metadata.auto_remediate
        let (to_auto_remediate, to_await_approval) :=
          routeDecisions st auto_remediate_config assessments
        let (w, batches) :=
          if to_auto_remediate ≠ [] then
            let w :=
              if remediation_result.error.isNone then
                { w with
                  auto_remediated := remediation_result.fixes_generated
                  remediation_ids :=
                    w.remediation_ids ++ [remediation_result.batch_id.getD ""] }
              else w
            (w, [to_auto_remediate])
          else (w, [])
        let w :=
          if to_await_approval ≠ [] then
            let w := { w with awaiting_approval := to_await_approval.length }
            if w.awaiting_approval > 0 then { w with status := .awaiting_approval }
            else w
          else w
        let w := update_step w "remediate"
          (if to_await_approval = [] then .completed else .awaiting_approval)
          (some (.remediateOut to_auto_remediate.length to_await_approval.length))
          none now
        (w, batches)

/-- Source `workflow_engine._complete_workflow` (lines 369–385), inlining
`state_manager.complete_workflow` on the shared object. -/
def complete_workflow_stage (w : Workflow) (now : Nat) : Workflow :=
  if w.status ≠ .awaiting_approval then
    { w with
      status := .completed
      completed_at := some now
      current_step := none
      updated_at := now }
  else w

/-- The collaborator responses observed by one workflow execution. -/
structure Oracle where
  trigger : TriggerScanResponse := {}
  scan_final : ScanPollResponse := {}
  assess : AssessResponse := {}
  remediate : RemediateBatchResponse := {}
  deriving DecidableEq, Repr

/-- The tail of `workflow_engine._execute_workflow` after the scan stage
(lines 87–97): the point at which the execution unit resumes after the
scan await.  The only between-stage guard in the source is
`if workflow.status == WorkflowStatus.FAILED: return` — no other status
(in particular not `CANCELLED`) stops progression. -/
def executeFromAssess (st : Settings) (w : Workflow) (o : Oracle) (now : Nat) :
    Workflow × List (List Vuln) :=
  let w := execute_assessment w o.assess now
  if w.status = .failed then (w, [])
  else
    let (w, batches) := execute_remediation_decisions st w o.remediate now
    (complete_workflow_stage w now, batches)

/-- Source `workflow_engine._execute_workflow` (lines 77–97): the sequential body
of the per-workflow execution unit (its `except` clause is unreachable for
these pure stage functions, which model every collaborator failure as a
returned error value, exactly as `agent_client` does). -/
def executeWorkflow (st : Settings) (w : Workflow) (o : Oracle) (now : Nat) :
    Workflow × List (List Vuln) :=
  let w := execute_scan w o.trigger o.scan_final now
  if w.status = .failed then (w, [])
  else executeFromAssess st w o now

/-- Source `workflow_engine.cancel_workflow` (lines 490–501): fetches the
workflow and, whenever it exists, unconditionally overwrites its status
with `CANCELLED` and stamps `completed_at` — there is no test of the
current status. -/
def cancel_workflow (sm : StateManager) (workflow_id : String) (now : Nat) :
    Option Workflow × StateManager :=
  match sm.get_workflow workflow_id with
  | none => (none, sm)
  | some w =>
    let w := { w with status := .cancelled, completed_at := some now, updated_at := now }
    (some w, sm.save_workflow w)

/-- The vulnerability object `approve_remediation` builds (lines 423–432):
only id/cve_id/title/severity keys. -/
def approvedVuln (a : Assessment) : Vuln :=
  { id := a.vulnerability_id
    cve_id := a.cve_id
    title := a.title
    severity := a.severity }

/-- The `to_remediate` list of `approve_remediation`: assessments whose
`vulnerability_id` is among the approved ids (a missing id is never a
member). -/
def to_remediate (w : Workflow) (vulnerability_ids : List String) : List Vuln :=
  match findStep w "assess" with
  | none => []
  | some assess_step =>
    match assess_step.output_data with
    | none => []
    | some od =>
      (od.getAssessments.filter (fun a =>
        match a.vulnerability_id with
        | some vid => vulnerability_ids.contains vid
        | none => false)).map approvedVuln

/-- Source `workflow_engine.approve_remediation` (lines 387–447).  Returns the
workflow the caller sees, the updated store, and the batches submitted to
the remediation collaborator.  A workflow that is not `AWAITING_APPROVAL`
is returned unchanged with no error and no submission. -/
def approve_remediation (sm : StateManager) (workflow_id : String)
    (vulnerability_ids : List String) (now : Nat) :
    Option Workflow × StateManager × List (List Vuln) :=
  match sm.get_workflow workflow_id with
  | none => (none, sm, [])
  | some w =>
    if w.status ≠ .awaiting_approval then (some w, sm, [])
    else
      let batch := to_remediate w vulnerability_ids
      let batches := if batch = [] then [] else [batch]
      let w := { w with
        awaiting_approval := 0
        status := .completed
        completed_at := some now
        updated_at := now }
      (some w, sm.save_workflow w, batches)

/-! ## Control-plane endpoints (`main.py`) -/

/-- The error taxonomy surfaced by the HTTP layer: `notFound` is a 404,
`invalidState` a 400 "already resolved" rejection. -/
inductive ApiError where
  | notFound
  | invalidState
  deriving DecidableEq, Repr

/-- Source `models.ApprovalRequest` — the request body of the `/approve`
endpoint (distinct from the HITL aggregate of the same Python name). -/
structure ApprovalReq where
  workflow_id : String
  vulnerability_ids : List String := []
  approved : Bool
  approver : String := ""
  comment : Option String := none
  deriving DecidableEq, Repr

/-- Source `main.approve_remediation` — the `POST /approve` endpoint (lines
214–250).  Rejection (`approved=false`) never errors, even for a missing
workflow; approval errors with `NotFound` only when the workflow does not
exist. -/
def approve_endpoint (sm : StateManager) (req : ApprovalReq) (now : Nat) :
    Except ApiError (Option Workflow × StateManager × List (List Vuln)) :=
  if !req.approved then
    match sm.get_workflow req.workflow_id with
    | none => .ok (none, sm, [])
    | some w =>
      let w := { w with status := .completed, awaiting_approval := 0, updated_at := now }
      .ok (some w, sm.save_workflow w, [])
  else
    match approve_remediation sm req.workflow_id req.vulnerability_ids now with
    | (none, _, _) => .error .notFound
    | (some w, sm2, batches) => .ok (some w, sm2, batches)

/-! ## HITL approval aggregate and audit log
(`hitl_models.py`, `audit_log.py`, `hitl_api.py`) -/

/-- Source `hitl_models.ApprovalRequest` — the HITL aggregate (kept distinct from
`ApprovalReq`, the `/approve` request body of `models.py`). -/
structure ApprovalRequest where
  approval_id : String
  workflow_id : String
  approval_type : ApprovalType := .remediation
  status : ApprovalStatus := .pending
  title : String := ""
  description : String := ""
  vulnerability_ids : List String := []
  priority : String := "P2"
  risk_summary : String := ""
  recommended_action : String := ""
  requested_by : String := "system"
  requested_at : Nat := 0
  expires_at : Option Nat := none
  resolved_by : Option String := none
  resolved_at : Option Nat := none
  resolution_comment : Option String := none
  deriving DecidableEq, Repr

/-- Source `hitl_models.AuditLogEntry` (the free-form `details` dictionary, never
read back by any claim-relevant code, is omitted). -/
structure AuditLogEntry where
  entry_id : String
  timestamp : Nat := 0
  action : AuditAction
  actor : String
  workflow_id : Option String := none
  vulnerability_id : Option String := none
  approval_id : Option String := none
  success : Bool := true
  error_message : Option String := none
  deriving DecidableEq, Repr

/-- Source `audit_log.AuditLogService.log` (lines 25–64): pure append of the
constructed entry to `self._entries`. -/
def AuditLogService.log (entries : List AuditLogEntry) (e : AuditLogEntry) :
    List AuditLogEntry :=
  entries ++ [e]

/-- Source `audit_log.log_approval_decision` (lines 146–165): the entry appended
when an approval is decided (`success` keeps its default `True`). -/
def approvalDecisionEntry (approval_id workflow_id : String) (approved : Bool)
    (actor : String) (entry_id : String) (now : Nat) : AuditLogEntry :=
  { entry_id := entry_id
    timestamp := now
    action := if approved then .approval_granted else .approval_denied
    actor := actor
    workflow_id := some workflow_id
    approval_id := some approval_id }

/-- Source `audit_log.log_approval_requested` (lines 125–144). -/
def approvalRequestedEntry (workflow_id approval_id : String)
    (entry_id : String) (now : Nat) : AuditLogEntry :=
  { entry_id := entry_id
    timestamp := now
    action := .approval_requested
    actor := "orchestrator"
    workflow_id := some workflow_id
    approval_id := some approval_id }

/-- Source `hitl_api.CreateApprovalRequest`. -/
structure CreateApprovalRequest where
  workflow_id : String
  title : String := ""
  description : String := ""
  vulnerability_ids : List String := []
  priority : String := "P2"
  risk_summary : String := ""
  recommended_action : String := ""
  requested_by : String := "system"
  expires_in_hours : Nat := 24
  deriving DecidableEq, Repr

/-- Source `hitl_api.ApprovalDecision`. -/
structure ApprovalDecision where
  approved : Bool
  resolver : String
  comment : Option String := none
  deriving DecidableEq, Repr

/-- Source `hitl_api.create_approval` — `POST /hitl/approvals` (lines 71–114):
stores a new `pending` approval, appends an `approval_requested` audit
entry, and fires a best-effort notification (no state effect).  The fresh
uuid and the clock are parameters. -/
def create_approval (store : List (String × ApprovalRequest))
    (audit : List AuditLogEntry) (req : CreateApprovalRequest)
    (approval_id entry_id : String) (now : Nat) :
    List (String × ApprovalRequest) × List AuditLogEntry :=
  let approval : ApprovalRequest :=
    { approval_id := approval_id
      workflow_id := req.workflow_id
      approval_type := .remediation
      title := req.title
      description := req.description
      vulnerability_ids := req.vulnerability_ids
      priority := req.priority
      risk_summary := req.risk_summary
      recommended_action := req.recommended_action
      requested_by := req.requested_by
      requested_at := now
      expires_at := some (now + req.expires_in_hours * 3600) }
  (storePut approval_id approval store,
   AuditLogService.log audit (approvalRequestedEntry req.workflow_id approval_id entry_id now))

/-- The lazy-expiry reclassification of `get_pending_approvals` applied to
one stored approval: a `pending` approval whose `expires_at` has passed is
flipped to `expired` in place. -/
def lazyExpire (now : Nat) (a : ApprovalRequest) : ApprovalRequest :=
  if a.status = .pending then
    match a.expires_at with
    | some t => if t < now then { a with status := .expired } else a
    | none => a
  else a

/-- Source `hitl_api.get_pending_approvals` — `GET /hitl/approvals/pending`
(lines 146–167): reclassifies expired entries in the shared store, then
returns the remaining `pending` ones sorted by `requested_at` descending
(Python `sorted(..., reverse=True)` is a stable descending sort). -/
def get_pending_approvals (store : List (String × ApprovalRequest)) (now : Nat) :
    List (String × ApprovalRequest) × List ApprovalRequest :=
  let store2 := store.map (fun p => (p.1, lazyExpire now p.2))
  let pending := (store2.map (·.2)).filter (fun a => a.status = .pending)
  (store2, pending.mergeSort (fun a b => decide (b.requested_at ≤ a.requested_at)))

/-- The in-place mutation `decide_approval` performs on a pending
approval (`hitl_api.py` lines 201–205). -/
def resolveApproval (a : ApprovalRequest) (decision : ApprovalDecision)
    (now : Nat) : ApprovalRequest :=
  { a with
    status := if decision.approved then .approved else .rejected
    resolved_by := some decision.resolver
    resolved_at := some now
    resolution_comment := decision.comment }

/-- Source `hitl_api.decide_approval` — `POST /hitl/approvals/{id}/decide`
(lines 186–227): 404 when the approval is missing, 400 when its stored
status is not `pending` (the wall clock is never consulted here);
otherwise sets the terminal status, resolver, resolution timestamp and
comment, and appends an audit entry. -/
def decide_approval (store : List (String × ApprovalRequest))
    (audit : List AuditLogEntry) (approval_id : String)
    (decision : ApprovalDecision) (entry_id : String) (now : Nat) :
    Except ApiError
      (List (String × ApprovalRequest) × List AuditLogEntry × ApprovalStatus) :=
  match storeGet approval_id store with
  | none => .error .notFound
  | some approval =>
    if approval.status ≠ .pending then .error .invalidState
    else
      let approval := resolveApproval approval decision now
      .ok (storePut approval_id approval store,
           AuditLogService.log audit
             (approvalDecisionEntry approval_id approval.workflow_id
               decision.approved decision.resolver entry_id now),
           approval.status)

/-! ## Scan polling (`agent_client.poll_scan_completion`, lines 158–184) -/

/-- The dictionary returned on polling timeout:
`{"error": "Polling timeout", "status": "timeout"}`. -/
def timeoutResponse : ScanPollResponse :=
  { status := "timeout", error := some "Polling timeout" }

/-- The `while elapsed < max_wait` loop of `poll_scan_completion`:
`results k` is the collaborator response to the `k`-th `get_scan_results`
call.  Returns the final response together with the number of polls
performed.  The positivity hypothesis on `poll_interval` reflects that the
Python loop only terminates for a positive interval. -/
def pollFrom (results : Nat → ScanPollResponse) (max_wait poll_interval : Nat)
    (hp : 0 < poll_interval) (elapsed k : Nat) : ScanPollResponse × Nat :=
  if h : elapsed < max_wait then
    let r := results k
    if r.status = "completed" ∨ r.status = "failed" then (r, k + 1)
    else pollFrom results max_wait poll_interval hp (elapsed + poll_interval) (k + 1)
  else (timeoutResponse, k)
  termination_by max_wait - elapsed
  decreasing_by simp_wf; omega

/-- Source `agent_client.poll_scan_completion` with its defaults
`max_wait = 600`, `poll_interval = 5` supplied by the caller
(`_execute_scan` passes `settings.workflow_timeout_seconds`). -/
def poll_scan_completion (results : Nat → ScanPollResponse)
    (max_wait poll_interval : Nat) (hp : 0 < poll_interval) :
    ScanPollResponse × Nat :=
  pollFrom results max_wait poll_interval hp 0 0

/-- Ceiling division on naturals. -/
def ceilDiv (a b : Nat) : Nat := (a + b - 1) / b

/-! ## Process-level state

One orchestrator process holds three module-level stores: the state
manager inside the single `WorkflowEngine` (`main.py` line 53), the HITL
`approvals_store` (`hitl_api.py` line 33) and the global `audit_log`
(`audit_log.py` line 351).  `workflow_engine.py` imports neither
`hitl_api` nor `audit_log`, so a workflow execution can only touch the
first of the three. -/
structure ProcessState where
  state_manager : StateManager := {}
  approvals_store : List (String × ApprovalRequest) := []
  audit_entries : List AuditLogEntry := []
  deriving DecidableEq, Repr

/-- Source `start_workflow` followed by the complete run of its execution unit
(`workflow_engine.start_workflow` + `_execute_workflow`), at process
level: create the aggregate, drive it through the stages against the
oracle, persist the result.  Returns the new process state, the final
workflow object, and the remediation batches submitted along the way. -/
def runWorkflowProcess (st : Settings) (ps : ProcessState)
    (workflow_id repository branch : String) (metadata : Metadata)
    (o : Oracle) (now : Nat) : ProcessState × Workflow × List (List Vuln) :=
  let w0 := create_workflow workflow_id repository branch "api" metadata now
  let (w1, batches) := executeWorkflow st w0 o now
  ({ ps with state_manager := ps.state_manager.save_workflow w1 }, w1, batches)

/-! ## Derived notions used by the claims -/

/-- The step statuses of a workflow, in the fixed step order
(scan, assess, decide, remediate, complete). -/
def stepStatuses (w : Workflow) : List WorkflowStatus :=
  w.steps.map WorkflowStep.status

/-- All-`PENDING` tail. -/
def pendingTail : List WorkflowStatus → Bool
  | [] => true
  | .pending :: rest => pendingTail rest
  | _ :: _ => false

/-- The ordering discipline claimed for step statuses: a prefix of
`COMPLETED` entries, then at most one in-flight or failed entry, then only
`PENDING` entries — never a `COMPLETED` entry after a non-`COMPLETED`
one. -/
def stepOrderOk : List WorkflowStatus → Bool
  | [] => true
  | .completed :: rest => stepOrderOk rest
  | _ :: rest => pendingTail rest

/-- The routing table exactly as the specification describes it, with a
three-way outcome: `some true` = auto-remediate route, `some false` =
approval route, `none` = routed nowhere.  (Stated from the spec for the
refinement comparison with `routeDecisions`.) -/
def specRoute (st : Settings) (auto_remediate_config : Bool) (a : Assessment) :
    Option Bool :=
  let p := assessmentPriority a
  if p = "P0" ∨ p = "P1" then some (!st.require_approval_p0_p1)
  else if p = "P2" then some st.auto_remediate_p2
  else if p = "P3" ∨ p = "P4" then
    if st.auto_remediate_p3_p4 && auto_remediate_config then some true else none
  else none

/-! ### Store lemmas -/

theorem storeGet_storePut {α : Type} (k : String) (v : α)
    (s : List (String × α)) : storeGet k (storePut k v s) = some v := by
  induction s with
  | nil => simp [storePut, storeGet]
  | cons p rest ih =>
    by_cases h : p.1 = k
    · simp [storePut, storeGet, h]
    · simpa [storePut, storeGet, h] using ih

theorem storeGet_map {α β : Type} (g : α → β) (k : String)
    (s : List (String × α)) :
    storeGet k (s.map (fun p => (p.1, g p.2))) = (storeGet k s).map g := by
  induction s with
  | nil => simp [storeGet]
  | cons p rest ih =>
    by_cases h : p.1 = k
    · simp [storeGet, h]
    · simpa [storeGet, h] using ih

/-! ## Claim C10 -/

/-- Claim C10: `cancel_workflow` never inspects the workflow's current
status — for every existing workflow, including one already in a terminal
state, it unconditionally overwrites the status with `CANCELLED` and sets
`completed_at`. -/
theorem C10_cancel_unconditional (sm : StateManager) (workflow_id : String)
    (now : Nat) (w : Workflow) (h : sm.get_workflow workflow_id = some w) :
    (cancel_workflow sm workflow_id now).1 =
      some { w with status := .cancelled, completed_at := some now,
                    updated_at := now } := by
  simp [cancel_workflow, h]

/-- Witness for C10: cancelling a workflow that is already terminal
(`COMPLETED`) still flips it to `CANCELLED`. -/
theorem C10_witness :
    ((StateManager.mk [("w1",
        { workflow_id := "w1", repository := "acme/api",
          status := .completed })]).get_workflow "w1" =
      some { workflow_id := "w1", repository := "acme/api",
             status := WorkflowStatus.completed }) ∧
    (cancel_workflow
        (StateManager.mk [("w1",
          { workflow_id := "w1", repository := "acme/api",
            status := .completed })]) "w1" 5).1 =
      some { workflow_id := "w1", repository := "acme/api",
             status := .cancelled, completed_at := some 5,
             updated_at := 5 } := by
  exact ⟨rfl, C10_cancel_unconditional
    (StateManager.mk [("w1",
      { workflow_id := "w1", repository := "acme/api", status := .completed })])
    "w1" 5
    { workflow_id := "w1", repository := "acme/api", status := .completed }
    rfl⟩

/-! ## Claim C3 -/

/-- Counterexample to C3 as stated: with `auto_remediate_p3_p4 = false`
(and the other policy flags at their defaults), a `P3` assessment is
appended to neither the auto-remediate batch nor the approval queue — it
is routed nowhere, so not every assessment is routed to exactly one of the
two routes. -/
theorem C3_counterexample :
    (routeDecisions { auto_remediate_p3_p4 := false } true
      [{ vulnerability_id := some "v3",
         risk_score := some { priority := some "P3" } }]).1 = [] ∧
    (routeDecisions { auto_remediate_p3_p4 := false } true
      [{ vulnerability_id := some "v3",
         risk_score := some { priority := some "P3" } }]).2 = [] := by
  exact ⟨rfl, rfl⟩

/-- Claim C3 (amended): the decision loop routes `P0`/`P1` to the approval
queue iff `require_approval_p0_p1` and to auto-remediate otherwise, `P2`
to auto-remediate iff `auto_remediate_p2` and to the approval queue
otherwise, and `P3`/`P4` to auto-remediate iff
`auto_remediate_p3_p4 && autoRemediate`; a `P3`/`P4` assessment failing
that test, and any assessment with a priority label outside `P0`–`P4`, is
routed nowhere (silently dropped), so not every assessment is routed. -/
theorem C3_routing_characterization (st : Settings) (cfg : Bool)
    (l : List Assessment) :
    routeDecisions st cfg l =
      ((l.filter (fun a => specRoute st cfg a = some true)).map buildVuln,
       (l.filter (fun a => specRoute st cfg a = some false)).map buildVuln) := by
  induction l with
  | nil => rfl
  | cons a rest ih =>
    simp only [routeDecisions, ih, specRoute, List.filter_cons, List.map]
    by_cases h01 : assessmentPriority a = "P0" ∨ assessmentPriority a = "P1"
    · by_cases hreq : st.require_approval_p0_p1 <;>
        simp [h01, hreq, List.filter_cons]
    · by_cases h2 : assessmentPriority a = "P2"
      · by_cases hp2 : st.auto_remediate_p2 <;>
          simp [h01, h2, hp2, List.filter_cons]
      · by_cases h34 : assessmentPriority a = "P3" ∨ assessmentPriority a = "P4"
        · by_cases hflag : st.auto_remediate_p3_p4 && cfg <;>
            simp [h01, h2, h34, hflag, List.filter_cons]
        · simp [h01, h2, h34, List.filter_cons]

/-! ## Claim C7 -/

theorem complete_workflow_stage_status (w : Workflow) (now : Nat) :
    (complete_workflow_stage w now).status = .completed ∨
    (complete_workflow_stage w now).status = .awaiting_approval := by
  unfold complete_workflow_stage
  split
  · exact Or.inl rfl
  · next h => exact Or.inr (not_not.mp h)

theorem executeFromAssess_status (st : Settings) (w : Workflow) (o : Oracle)
    (now : Nat) :
    (executeFromAssess st w o now).1.status = .failed ∨
    (executeFromAssess st w o now).1.status = .completed ∨
    (executeFromAssess st w o now).1.status = .awaiting_approval := by
  simp only [executeFromAssess]
  by_cases hfail : (execute_assessment w o.assess now).status = .failed
  · simp [hfail]
  · rcases hrd : execute_remediation_decisions st
      (execute_assessment w o.assess now) o.remediate now with ⟨w3, b⟩
    simp only [if_neg hfail, hrd]
    exact Or.inr (complete_workflow_stage_status w3 now)

/-- Claim C7 (amended): the execution unit's only between-stage guard is
`status == FAILED`, so after `CancelWorkflow` marks a workflow
`CANCELLED`, the resumed execution unit still runs the remaining stages
and overwrites the status — the final status is always one of `FAILED`,
`COMPLETED` or `AWAITING_APPROVAL`, never `CANCELLED`. -/
theorem C7_cancel_not_checked (st : Settings) (w : Workflow) (o : Oracle)
    (now : Nat) (_hc : w.status = .cancelled) :
    (executeFromAssess st w o now).1.status ≠ .cancelled ∧
    ((executeFromAssess st w o now).1.status = .failed ∨
     (executeFromAssess st w o now).1.status = .completed ∨
     (executeFromAssess st w o now).1.status = .awaiting_approval) := by
  refine ⟨?_, executeFromAssess_status st w o now⟩
  rcases executeFromAssess_status st w o now with h | h | h <;> simp [h]

/-- A workflow as it stands after a successful scan that found zero
vulnerabilities, subsequently marked `CANCELLED` by `cancel_workflow`
while the execution unit was suspended at the between-stage boundary. -/
def c7CancelledWorkflow : Workflow :=
  { workflow_id := "w7", repository := "acme/api", status := .cancelled,
    completed_at := some 3, scan_id := some "s1",
    steps :=
      [ { step_id := "scan", action := .scan, agent := some "security-scanner",
          status := .completed,
          output_data := some (.scanOut (some "s1") 0 []),
          started_at := some 1, completed_at := some 2 },
        { step_id := "assess", action := .assess, agent := some "risk-assessment" },
        { step_id := "decide", action := .auto_remediate, agent := some "orchestrator" },
        { step_id := "remediate", action := .auto_remediate,
          agent := some "auto-remediation" },
        { step_id := "complete", action := .complete, agent := some "orchestrator" } ] }

/-- Counterexample to C7 as stated: resuming the execution unit on a
workflow already marked `CANCELLED` still executes the assess stage (its
step leaves `PENDING` and completes) and the final status is `COMPLETED`,
not `CANCELLED` — the cancel flag is never checked between stages. -/
theorem C7_counterexample :
    c7CancelledWorkflow.status = .cancelled ∧
    (executeFromAssess {} c7CancelledWorkflow {} 9).1.status = .completed ∧
    ((findStep (executeFromAssess {} c7CancelledWorkflow {} 9).1 "assess").map
      WorkflowStep.status) = some .completed := by
  exact ⟨rfl, rfl, rfl⟩

/-- Witness for C7 (amended): applied to a concrete cancelled workflow. -/
theorem C7_witness :
    c7CancelledWorkflow.status = .cancelled ∧
    (executeFromAssess {} c7CancelledWorkflow {} 9).1.status ≠ .cancelled := by
  exact ⟨rfl, (C7_cancel_not_checked {} c7CancelledWorkflow {} 9 rfl).1⟩

/-! ## Claim C2 -/

/-- The stored workflow of the C2 scenario: it exists but is `COMPLETED`,
i.e. not awaiting approval. -/
def c2Workflow : Workflow :=
  { workflow_id := "w2", repository := "acme/api", status := .completed }

/-- Counterexample to C2 as stated: a `ResolveApproval` call
(`POST /approve`, `approved=true`) on a workflow that is not awaiting
approval is not rejected with `InvalidState` — it returns successfully
with the unchanged workflow and performs nothing. -/
theorem C2_counterexample :
    c2Workflow.status ≠ .awaiting_approval ∧
    approve_endpoint (StateManager.mk [("w2", c2Workflow)])
        { workflow_id := "w2", approved := true, approver := "alice" } 3 =
      .ok (some c2Workflow, StateManager.mk [("w2", c2Workflow)], []) := by
  exact ⟨by decide, rfl⟩

/-- Claim C2 (amended): `ResolveApproval` (`POST /approve`) rejects with
`NotFound` only when `approved=true` and the workflow does not exist; when
the workflow exists but is not `AWAITING_APPROVAL` it succeeds silently,
returning the workflow unchanged; and with `approved=false` it never
rejects at all (even for a missing workflow).  Only the separate HITL
endpoint (`decide_approval`, see C6) implements the claimed
`NotFound`/`InvalidState` discipline. -/
theorem C2_resolve_characterization (sm : StateManager) (req : ApprovalReq)
    (now : Nat) :
    (req.approved = true → sm.get_workflow req.workflow_id = none →
      approve_endpoint sm req now = .error .notFound) ∧
    (∀ w, req.approved = true → sm.get_workflow req.workflow_id = some w →
      w.status ≠ .awaiting_approval →
      approve_endpoint sm req now = .ok (some w, sm, [])) ∧
    (req.approved = false → ∀ e, approve_endpoint sm req now ≠ .error e) := by
  refine ⟨?_, ?_, ?_⟩
  · intro hap hget
    simp [approve_endpoint, approve_remediation, hap, hget]
  · intro w hap hget hst
    simp [approve_endpoint, approve_remediation, hap, hget, hst]
  · intro hap e
    rcases hget : sm.get_workflow req.workflow_id with _ | w <;>
      simp [approve_endpoint, hap, hget]

/-- Witness for C2 (amended): a missing workflow with `approved=true` is
the one case that is rejected, with `NotFound`. -/
theorem C2_witness :
    ((StateManager.mk []).get_workflow "absent" = none) ∧
    approve_endpoint (StateManager.mk [])
        { workflow_id := "absent", approved := true, approver := "alice" } 0 =
      .error .notFound := by
  exact ⟨rfl, (C2_resolve_characterization (StateManager.mk [])
    { workflow_id := "absent", approved := true, approver := "alice" } 0).1 rfl rfl⟩

/-! ## Claim C6 -/

/-- The C6 scenario approval: `pending`, but with an `expires_at` already
in the past relative to the decision time used below. -/
def c6Approval : ApprovalRequest :=
  { approval_id := "a1", workflow_id := "w6",
    vulnerability_ids := ["v1"], priority := "P1",
    requested_at := 0, expires_at := some 10 }

/-- The C6 decision payload. -/
def c6Decision : ApprovalDecision :=
  { approved := true, resolver := "alice", comment := some "ok" }

/-- Counterexample to C6 as stated: at time 100 the approval's
`expires_at = 10` has long passed, yet `decide_approval` succeeds — the
endpoint checks only the stored status, never the clock, so an approval
that expired by time but was not yet lazily reclassified is resolved
instead of being rejected with `InvalidState`. -/
theorem C6_counterexample :
    c6Approval.status = .pending ∧
    c6Approval.expires_at = some 10 ∧
    (decide_approval [("a1", c6Approval)] [] "a1" c6Decision "e1" 100).isOk = true := by
  exact ⟨rfl, rfl, rfl⟩

/-- Claim C6 (amended): `Decide` fails with `NotFound` when the approval
is missing and with `InvalidState` when its stored status is not
`pending` — which covers approvals lazily reclassified `expired` by a
prior `ListPending` read, but not approvals whose `expires_at` has merely
passed on the clock: those are still decided successfully.  A successful
decision writes the terminal status, resolver, timestamp and comment
exactly once, and any second `Decide` on the same id fails with
`InvalidState`; after a lazy-expiry pass, deciding a time-expired approval
fails with `InvalidState` as well. -/
theorem C6_decide_characterization (store : List (String × ApprovalRequest))
    (audit : List AuditLogEntry) (aid : String) (d : ApprovalDecision)
    (eid : String) (now : Nat) :
    (storeGet aid store = none →
      decide_approval store audit aid d eid now = .error .notFound) ∧
    (∀ a, storeGet aid store = some a → a.status ≠ .pending →
      decide_approval store audit aid d eid now = .error .invalidState) ∧
    (∀ a, storeGet aid store = some a → a.status = .pending →
      decide_approval store audit aid d eid now =
        .ok (storePut aid (resolveApproval a d now) store,
             audit ++ [approvalDecisionEntry aid a.workflow_id d.approved
               d.resolver eid now],
             if d.approved then .approved else .rejected) ∧
      (∀ d2 eid2 now2 audit2,
        decide_approval (storePut aid (resolveApproval a d now) store)
            audit2 aid d2 eid2 now2 = .error .invalidState)) ∧
    (∀ a t, storeGet aid store = some a → a.status = .pending →
      a.expires_at = some t → t < now →
      decide_approval (get_pending_approvals store now).1 audit aid d eid now =
        .error .invalidState) := by
  refine ⟨?_, ?_, ?_, ?_⟩
  · intro hget
    simp [decide_approval, hget]
  · intro a hget hst
    simp [decide_approval, hget, hst]
  · intro a hget hst
    constructor
    · simp [decide_approval, hget, hst, AuditLogService.log,
        approvalDecisionEntry, resolveApproval]
    · intro d2 eid2 now2 audit2
      have hget2 : storeGet aid (storePut aid (resolveApproval a d now) store) =
          some (resolveApproval a d now) := storeGet_storePut aid _ store
      have hne : (resolveApproval a d now).status ≠ .pending := by
        simp only [resolveApproval]
        rcases d.approved with _ | _ <;> simp
      simp [decide_approval, hget2, hne]
  · intro a t hget hst hexp hlt
    have hget2 : storeGet aid (get_pending_approvals store now).1 =
        some (lazyExpire now a) := by
      simp [get_pending_approvals, storeGet_map, hget]
    have hne : (lazyExpire now a).status ≠ .pending := by
      simp [lazyExpire, hst, hexp, hlt]
    simp [decide_approval, hget2, hne]

/-- Witness for C6 (amended): a concrete pending approval is decided
once; a second decision on the same id is rejected with `InvalidState`. -/
theorem C6_witness :
    storeGet "a1" [("a1", c6Approval)] = some c6Approval ∧
    c6Approval.status = .pending ∧
    decide_approval (storePut "a1" (resolveApproval c6Approval c6Decision 5)
        [("a1", c6Approval)]) [] "a1" c6Decision "e2" 6 = .error .invalidState := by
  exact ⟨rfl, rfl,
    ((C6_decide_characterization [("a1", c6Approval)] [] "a1" c6Decision "e1" 5).2.2.1
      c6Approval rfl rfl).2 c6Decision "e2" 6 []⟩

/-! ## Claim C9 -/

theorem ceilDiv_pos (d p : Nat) (hp : 0 < p) (hd : 0 < d) : 0 < ceilDiv d p := by
  unfold ceilDiv
  exact Nat.div_pos (by omega) hp

theorem ceilDiv_sub_step (d p : Nat) (hp : 0 < p) (hd : 0 < d) :
    ceilDiv (d - p) p + 1 = ceilDiv d p := by
  unfold ceilDiv
  have hr : d + p - 1 = (d - 1) + p := by omega
  rw [hr, Nat.add_div_right _ hp]
  rcases Nat.le_total p d with h | h
  · have h1 : d - p + p - 1 = d - 1 := by omega
    rw [h1]
  · have h0 : d - p = 0 := by omega
    rw [h0]
    have h2 : 0 + p - 1 = p - 1 := by omega
    rw [h2, Nat.div_eq_of_lt (by omega), Nat.div_eq_of_lt (by omega)]

theorem pollFrom_count_le (results : Nat → ScanPollResponse)
    (max_wait p : Nat) (hp : 0 < p) :
    ∀ d e k, max_wait - e ≤ d →
      (pollFrom results max_wait p hp e k).2 ≤ k + ceilDiv (max_wait - e) p := by
  intro d
  induction d with
  | zero =>
    intro e k h
    unfold pollFrom
    rw [dif_neg (by omega)]
    simp
  | succ d ih =>
    intro e k h
    unfold pollFrom
    split
    · next hlt =>
      dsimp only
      split
      · have : 0 < ceilDiv (max_wait - e) p := ceilDiv_pos _ p hp (by omega)
        simpa using by omega
      · have hrec := ih (e + p) (k + 1) (by omega)
        have hstep : ceilDiv (max_wait - e - p) p + 1 = ceilDiv (max_wait - e) p :=
          ceilDiv_sub_step (max_wait - e) p hp (by omega)
        have hsub : max_wait - (e + p) = max_wait - e - p := by omega
        rw [hsub] at hrec
        omega
    · simp

theorem pollFrom_shape (results : Nat → ScanPollResponse)
    (max_wait p : Nat) (hp : 0 < p) :
    ∀ d e k, max_wait - e ≤ d →
      (pollFrom results max_wait p hp e k).1 = timeoutResponse ∨
      ((pollFrom results max_wait p hp e k).1 =
          results ((pollFrom results max_wait p hp e k).2 - 1) ∧
        ((pollFrom results max_wait p hp e k).1.status = "completed" ∨
         (pollFrom results max_wait p hp e k).1.status = "failed")) := by
  intro d
  induction d with
  | zero =>
    intro e k h
    unfold pollFrom
    rw [dif_neg (by omega)]
    exact Or.inl rfl
  | succ d ih =>
    intro e k h
    unfold pollFrom
    split
    · next hlt =>
      dsimp only
      split
      · next hdone => exact Or.inr ⟨by simp, hdone⟩
      · exact ih (e + p) (k + 1) (by omega)
    · exact Or.inl rfl

/-- Claim C9: for every positive poll interval, `poll_scan_completion`
performs at most `⌈max_wait / poll_interval⌉` polls (with the source
defaults 600 s and 5 s, at most 120) and returns either the collaborator's
own completed/failed response — the one obtained by its last poll — or
the timeout-error dictionary. -/
theorem C9_poll_bounded (results : Nat → ScanPollResponse)
    (max_wait poll_interval : Nat) (hp : 0 < poll_interval) :
    (poll_scan_completion results max_wait poll_interval hp).2 ≤
      ceilDiv max_wait poll_interval ∧
    ((poll_scan_completion results max_wait poll_interval hp).1 = timeoutResponse ∨
      ((poll_scan_completion results max_wait poll_interval hp).1 =
          results ((poll_scan_completion results max_wait poll_interval hp).2 - 1) ∧
        ((poll_scan_completion results max_wait poll_interval hp).1.status =
            "completed" ∨
         (poll_scan_completion results max_wait poll_interval hp).1.status =
            "failed"))) := by
  constructor
  · have := pollFrom_count_le results max_wait poll_interval hp max_wait 0 0
      (by omega)
    simpa [poll_scan_completion] using this
  · have := pollFrom_shape results max_wait poll_interval hp max_wait 0 0
      (by omega)
    simpa [poll_scan_completion] using this

/-- Witness for C9: with the source defaults (600 s ceiling, 5 s
interval) and a collaborator that reports completion immediately, the
loop performs its polls within the ceiling of 120. -/
theorem C9_witness :
    0 < 5 ∧ ceilDiv 600 5 = 120 ∧
    (poll_scan_completion (fun _ => { status := "completed" }) 600 5
        (by decide)).2 ≤ ceilDiv 600 5 := by
  exact ⟨by decide, by decide,
    (C9_poll_bounded (fun _ => { status := "completed" }) 600 5 (by decide)).1⟩

/-! ## Claim C5 -/

/-- The C5 scenario: the scan collaborator call fails outright. -/
def c5Oracle : Oracle := { trigger := { error := some "connection refused" } }

/-- Counterexample to C5 as stated: a collaborator error marks the
workflow `FAILED`, but the process audit log stays empty — no
`success=false` audit entry exists for this failed workflow, because
`workflow_engine.py` never writes to the audit log. -/
theorem C5_counterexample :
    ((runWorkflowProcess {} {} "w5" "acme/api" "main" {} c5Oracle 4).2.1.status
      = .failed) ∧
    ((runWorkflowProcess {} {} "w5" "acme/api" "main" {} c5Oracle 4).1.audit_entries
      = []) ∧
    (((runWorkflowProcess {} {} "w5" "acme/api" "main" {} c5Oracle 4).1.audit_entries.filter
        (fun e => !e.success)).length = 0) := by
  exact ⟨rfl, rfl, rfl⟩

/-! ## Claim C8 -/

/-- Claim C8 (amended): when the scan collaborator reports
`status="failed"`, the Workflow ends `FAILED`, the scan step ends
`FAILED`, and the assess/decide/remediate steps never leave `PENDING`.
The scan step's error message is the collaborator's `error` text when that
is a non-empty string, and the fallback "Scan failed" when the field is
absent; a collaborator that supplies an explicitly empty `error` string
leaves the step's `error_message` unset (see the counterexample). -/
theorem C8_scan_failed_halts (st : Settings) (wid repo br tb : String)
    (md : Metadata) (o : Oracle) (n now : Nat) (w : Workflow)
    (htrig : o.trigger.error = none)
    (hfail : o.scan_final.status = "failed")
    (hw : (executeWorkflow st (create_workflow wid repo br tb md n) o now).1 = w) :
    w.status = .failed ∧
    (findStep w "scan").map WorkflowStep.status = some .failed ∧
    (findStep w "assess").map WorkflowStep.status = some .pending ∧
    (findStep w "decide").map WorkflowStep.status = some .pending ∧
    (findStep w "remediate").map WorkflowStep.status = some .pending ∧
    (o.scan_final.error = none →
      (findStep w "scan").map WorkflowStep.error_message =
        some (some "Scan failed")) ∧
    (∀ msg, o.scan_final.error = some msg → msg ≠ "" →
      (findStep w "scan").map WorkflowStep.error_message = some (some msg)) := by
  subst hw
  have hne : o.scan_final.status ≠ "completed" := by
    rw [hfail]; decide
  rcases herr : o.scan_final.error with _ | msg
  · refine ⟨?_, ?_, ?_, ?_, ?_, ?_, ?_⟩ <;>
      simp [executeWorkflow, execute_scan, create_workflow, update_step,
        updateFirstStep, applyStepUpdate, findStep, truthyStr, htrig, herr, hne]
  · by_cases hmsg : msg = ""
    · subst hmsg
      refine ⟨?_, ?_, ?_, ?_, ?_, ?_, ?_⟩ <;>
        simp [executeWorkflow, execute_scan, create_workflow, update_step,
          updateFirstStep, applyStepUpdate, findStep, truthyStr, htrig, herr, hne]
    · refine ⟨?_, ?_, ?_, ?_, ?_, ?_, ?_⟩ <;>
        simp [executeWorkflow, execute_scan, create_workflow, update_step,
          updateFirstStep, applyStepUpdate, findStep, truthyStr, htrig, herr,
          hne, hmsg]

/-- The C8 counterexample oracle: the collaborator reports failure with an
explicitly empty `error` string. -/
def c8Oracle : Oracle :=
  { trigger := { scan_id := some "s1" },
    scan_final := { status := "failed", error := some "" } }

/-- Counterexample to C8 as stated: when the failed scan response carries
`error=""`, the workflow and scan step do end `FAILED`, but the scan
step's `error_message` stays unset (`update_step` skips falsy messages) —
not the claimed non-empty error message. -/
theorem C8_counterexample :
    c8Oracle.scan_final.status = "failed" ∧
    ((executeWorkflow {} (create_workflow "w8" "acme/api" "main" "api" {} 1)
        c8Oracle 7).1.status = .failed) ∧
    ((findStep (executeWorkflow {}
        (create_workflow "w8" "acme/api" "main" "api" {} 1) c8Oracle 7).1
        "scan").map WorkflowStep.status = some .failed) ∧
    ((findStep (executeWorkflow {}
        (create_workflow "w8" "acme/api" "main" "api" {} 1) c8Oracle 7).1
        "scan").map WorkflowStep.error_message = some none) := by
  exact ⟨rfl, rfl, rfl, rfl⟩

/-- The C8 witness oracle: a failed scan response with no `error` field,
as in the specification's example scenario. -/
def c8WitnessOracle : Oracle :=
  { trigger := { scan_id := some "s1" },
    scan_final := { status := "failed" } }

/-- Witness for C8 (amended): the example scenario `{status:"failed"}`
gives a `FAILED` workflow whose scan step carries the fallback message. -/
theorem C8_witness :
    (c8WitnessOracle.trigger.error = none) ∧
    (c8WitnessOracle.scan_final.status = "failed") ∧
    ((executeWorkflow {} (create_workflow "w8w" "acme/api" "main" "api" {} 1)
        c8WitnessOracle 7).1.status = .failed) ∧
    ((findStep (executeWorkflow {}
        (create_workflow "w8w" "acme/api" "main" "api" {} 1) c8WitnessOracle 7).1
        "scan").map WorkflowStep.error_message = some (some "Scan failed")) := by
  refine ⟨rfl, rfl, ?_, ?_⟩
  · exact (C8_scan_failed_halts {} "w8w" "acme/api" "main" "api" {}
      c8WitnessOracle 1 7 _ rfl rfl rfl).1
  · exact (C8_scan_failed_halts {} "w8w" "acme/api" "main" "api" {}
      c8WitnessOracle 1 7 _ rfl rfl rfl).2.2.2.2.2.1 rfl

/-! ## Claim C1 -/

/-- The workflow produced by a successful scan stage on a fresh
workflow, in explicit form. -/
theorem execute_scan_success_eq (wid repo br tb : String) (md : Metadata)
    (o : Oracle) (now : Nat)
    (h1 : o.trigger.error = none)
    (h2 : o.scan_final.status = "completed") :
    execute_scan (create_workflow wid repo br tb md now) o.trigger
        o.scan_final now =
      { workflow_id := wid, repository := repo, branch := br,
        status := .scanning, current_step := some "scan",
        steps :=
          [ { step_id := "scan", action := .scan, status := .completed,
              agent := some "security-scanner",
              output_data := some (.scanOut o.trigger.scan_id
                (extract_vulnerabilities o.scan_final).length
                (extract_vulnerabilities o.scan_final)),
              started_at := some now, completed_at := some now },
            { step_id := "assess", action := .assess, agent := some "risk-assessment" },
            { step_id := "decide", action := .auto_remediate, agent := some "orchestrator" },
            { step_id := "remediate", action := .auto_remediate, agent := some "auto-remediation" },
            { step_id := "complete", action := .complete, agent := some "orchestrator" } ],
        scan_id := o.trigger.scan_id,
        total_vulnerabilities := (extract_vulnerabilities o.scan_final).length,
        created_at := now, updated_at := now,
        triggered_by := tb, metadata := md } := by
  simp [execute_scan, create_workflow, update_step, updateFirstStep,
    applyStepUpdate, truthyStr, h1, h2]

/-- After a successful scan, when the assessment succeeds and routes at
least one vulnerability to the approval queue, the rest of the execution
unit ends with status `AWAITING_APPROVAL`. -/
theorem executeFromAssess_awaiting_status (st : Settings)
    (wid repo br tb : String) (md : Metadata) (o : Oracle) (now : Nat)
    (h3 : extract_vulnerabilities o.scan_final ≠ [])
    (h4 : o.assess.error = none)
    (hassess : o.assess.assessments ≠ [])
    (h5 : (routeDecisions st md.auto_remediate o.assess.assessments).2 ≠ []) :
    (executeFromAssess st
      { workflow_id := wid, repository := repo, branch := br,
        status := .scanning, current_step := some "scan",
        steps :=
          [ { step_id := "scan", action := .scan, status := .completed,
              agent := some "security-scanner",
              output_data := some (.scanOut o.trigger.scan_id
                (extract_vulnerabilities o.scan_final).length
                (extract_vulnerabilities o.scan_final)),
              started_at := some now, completed_at := some now },
            { step_id := "assess", action := .assess, agent := some "risk-assessment" },
            { step_id := "decide", action := .auto_remediate, agent := some "orchestrator" },
            { step_id := "remediate", action := .auto_remediate, agent := some "auto-remediation" },
            { step_id := "complete", action := .complete, agent := some "orchestrator" } ],
        scan_id := o.trigger.scan_id,
        total_vulnerabilities := (extract_vulnerabilities o.scan_final).length,
        created_at := now, updated_at := now,
        triggered_by := tb, metadata := md } o now).1.status =
      .awaiting_approval := by
  rcases hroute : routeDecisions st md.auto_remediate o.assess.assessments
    with ⟨autos, waits⟩
  rw [hroute] at h5
  have hlen : 0 < waits.length := List.length_pos.mpr h5
  by_cases hauto : autos = []
  · simp [executeFromAssess, execute_assessment, execute_remediation_decisions,
      complete_workflow_stage, update_step, updateFirstStep,
      applyStepUpdate, truthyStr, findStep, StepOutput.getVulnerabilities,
      StepOutput.getAssessments, h3, h4, hassess, hroute, hauto, h5, hlen]
  · by_cases hrem : o.remediate.error.isNone
    · simp [executeFromAssess, execute_assessment, execute_remediation_decisions,
        complete_workflow_stage, update_step, updateFirstStep,
        applyStepUpdate, truthyStr, findStep, StepOutput.getVulnerabilities,
        StepOutput.getAssessments, h3, h4, hassess, hroute, hauto, hrem, h5, hlen]
    · simp [executeFromAssess, execute_assessment, execute_remediation_decisions,
        complete_workflow_stage, update_step, updateFirstStep,
        applyStepUpdate, truthyStr, findStep, StepOutput.getVulnerabilities,
        StepOutput.getAssessments, h3, h4, hassess, hroute, hauto, hrem, h5, hlen]

/-- Claim C1 (amended): when the decision step routes at least one
vulnerability to the approval queue, the Workflow moves to
`AWAITING_APPROVAL` but NO `ApprovalRequest` is created — the engine
tracks the queue only through the workflow's `awaiting_approval` counter,
and the HITL approvals store and audit log are untouched.  A subsequent
`ResolveApproval` with `approved=true` on the awaiting workflow moves it
to `COMPLETED` and submits exactly one remediation batch, provided the
supplied vulnerability ids match at least one assessed vulnerability. -/
theorem C1_approval_flow (st : Settings) (ps : ProcessState)
    (wid repo br : String) (md : Metadata) (o : Oracle) (now : Nat)
    (h1 : o.trigger.error = none)
    (h2 : o.scan_final.status = "completed")
    (h3 : extract_vulnerabilities o.scan_final ≠ [])
    (h4 : o.assess.error = none)
    (h5 : (routeDecisions st md.auto_remediate o.assess.assessments).2 ≠ []) :
    ((runWorkflowProcess st ps wid repo br md o now).2.1.status =
      .awaiting_approval) ∧
    ((runWorkflowProcess st ps wid repo br md o now).1.approvals_store =
      ps.approvals_store) ∧
    ((runWorkflowProcess st ps wid repo br md o now).1.audit_entries =
      ps.audit_entries) ∧
    (∀ sm w ids now2, sm.get_workflow w.workflow_id = some w →
      w.status = .awaiting_approval → to_remediate w ids ≠ [] →
      (approve_remediation sm w.workflow_id ids now2).1 =
        some { w with awaiting_approval := 0, status := .completed,
                      completed_at := some now2, updated_at := now2 } ∧
      (approve_remediation sm w.workflow_id ids now2).2.2.length = 1) := by
  have hassess : o.assess.assessments ≠ [] := by
    intro hcontra
    rw [hcontra] at h5
    simp [routeDecisions] at h5
  have hscan := execute_scan_success_eq wid repo br "api" md o now h1 h2
  have hefa := executeFromAssess_awaiting_status st wid repo br "api" md o now
    h3 h4 hassess h5
  have hkey : (executeWorkflow st (create_workflow wid repo br "api" md now)
      o now).1.status = .awaiting_approval := by
    simp only [executeWorkflow]
    rw [hscan]
    rw [if_neg (by simp)]
    exact hefa
  refine ⟨?_, ?_, ?_, ?_⟩
  · rcases hrun : executeWorkflow st (create_workflow wid repo br "api" md now)
      o now with ⟨wfin, bs⟩
    rw [hrun] at hkey
    simp only [runWorkflowProcess, hrun]
    exact hkey
  · rcases hrun : executeWorkflow st (create_workflow wid repo br "api" md now)
      o now with ⟨wfin, bs⟩
    simp [runWorkflowProcess, hrun]
  · rcases hrun : executeWorkflow st (create_workflow wid repo br "api" md now)
      o now with ⟨wfin, bs⟩
    simp [runWorkflowProcess, hrun]
  · intro sm w ids now2 hget hst hne2
    constructor
    · simp [approve_remediation, hget, hst]
    · simp [approve_remediation, hget, hst, hne2]

/-- The C1 scenario oracle: the scan finds one vulnerability, the
assessment labels it `P1`, and the default policy requires approval for
`P0`/`P1`. -/
def c1Oracle : Oracle :=
  { trigger := { scan_id := some "s1" }
    scan_final :=
      { status := "completed"
        results := [{ vulnerabilities := [{ id := some "v1" }] }] }
    assess :=
      { assessment_id := some "a1"
        assessments :=
          [{ vulnerability_id := some "v1"
             risk_score := some { priority := some "P1" }
             cve_id := some "CVE-2024-0001"
             title := some "vulnerable dep"
             severity := some "high" }]
        summary := { P1 := 1 } } }

/-- Counterexample to C1 as stated: the `P1` finding routes to the
approval queue and the Workflow ends `AWAITING_APPROVAL` with
`awaiting_approval = 1`, yet the process approvals store is still empty —
zero `ApprovalRequest`s were created, not the claimed exactly one. -/
theorem C1_counterexample :
    ((runWorkflowProcess {} {} "w1c" "acme/api" "main" {} c1Oracle 4).2.1.status
      = .awaiting_approval) ∧
    ((runWorkflowProcess {} {} "w1c" "acme/api" "main" {}
        c1Oracle 4).2.1.awaiting_approval = 1) ∧
    ((runWorkflowProcess {} {} "w1c" "acme/api" "main" {}
        c1Oracle 4).1.approvals_store = []) := by
  exact ⟨rfl, rfl, rfl⟩

/-- An awaiting-approval workflow holding the C1 assessment, as stored by
the engine before `ResolveApproval` is called. -/
def c1ApprovedWorkflow : Workflow :=
  { workflow_id := "w1x", repository := "acme/api",
    status := .awaiting_approval, awaiting_approval := 1,
    steps :=
      [ { step_id := "scan", action := .scan, status := .completed,
          agent := some "security-scanner",
          output_data := some (.scanOut (some "s1") 1 [{ id := some "v1" }]) },
        { step_id := "assess", action := .assess, status := .completed,
          agent := some "risk-assessment",
          output_data := some (.assessOut (some "a1")
            [{ vulnerability_id := some "v1",
               risk_score := some { priority := some "P1" },
               cve_id := some "CVE-2024-0001", title := some "vulnerable dep",
               severity := some "high" }] { P1 := 1 }) },
        { step_id := "decide", action := .auto_remediate, agent := some "orchestrator" },
        { step_id := "remediate", action := .auto_remediate,
          status := .awaiting_approval, agent := some "auto-remediation",
          output_data := some (.remediateOut 0 1) },
        { step_id := "complete", action := .complete, agent := some "orchestrator" } ] }

/-- Witness for C1 (amended): the concrete `P1` scenario, and the
subsequent approval that submits exactly one batch. -/
theorem C1_witness :
    (c1Oracle.trigger.error = none) ∧
    ((routeDecisions ({} : Settings) (({} : Metadata)).auto_remediate
        c1Oracle.assess.assessments).2 ≠ []) ∧
    ((runWorkflowProcess {} {} "w1w" "acme/api" "main" {} c1Oracle 4).2.1.status
      = .awaiting_approval) ∧
    (to_remediate c1ApprovedWorkflow ["v1"] ≠ []) ∧
    ((approve_remediation (StateManager.mk [("w1x", c1ApprovedWorkflow)])
        "w1x" ["v1"] 9).2.2.length = 1) := by
  refine ⟨rfl, by decide, ?_, by decide, ?_⟩
  · exact (C1_approval_flow {} {} "w1w" "acme/api" "main" {} c1Oracle 4
      rfl rfl (by decide) rfl (by decide)).1
  · exact ((C1_approval_flow {} {} "w1w" "acme/api" "main" {} c1Oracle 4
      rfl rfl (by decide) rfl (by decide)).2.2.2
      (StateManager.mk [("w1x", c1ApprovedWorkflow)]) c1ApprovedWorkflow
      ["v1"] 9 rfl rfl (by decide)).2

/-! ## Claim C4 -/

set_option maxHeartbeats 2000000 in
/-- Claim C4 (amended): the `decide` and `complete` steps are never
updated and stay `PENDING` for the whole workflow lifetime; among the
three steps the engine does drive, the order discipline holds — the
(scan, assess, remediate) status triple of a finished execution is one of
five ordered shapes, with assess only moving after scan completed and
remediate only moving after assess completed.  Because `decide` stays
`PENDING` while `remediate` advances, the full five-step status list is
NOT a prefix of `COMPLETED` entries followed by one other entry (see the
counterexample). -/
theorem C4_step_order (st : Settings) (wid repo br tb : String) (md : Metadata)
    (o : Oracle) (now : Nat) (w : Workflow)
    (hw : (executeWorkflow st (create_workflow wid repo br tb md now) o now).1 = w) :
    ((findStep w "decide").map WorkflowStep.status = some .pending) ∧
    ((findStep w "complete").map WorkflowStep.status = some .pending) ∧
    (((findStep w "scan").map WorkflowStep.status,
      (findStep w "assess").map WorkflowStep.status,
      (findStep w "remediate").map WorkflowStep.status) =
        (some .failed, some .pending, some .pending) ∨
     ((findStep w "scan").map WorkflowStep.status,
      (findStep w "assess").map WorkflowStep.status,
      (findStep w "remediate").map WorkflowStep.status) =
        (some .completed, some .failed, some .pending) ∨
     ((findStep w "scan").map WorkflowStep.status,
      (findStep w "assess").map WorkflowStep.status,
      (findStep w "remediate").map WorkflowStep.status) =
        (some .completed, some .completed, some .pending) ∨
     ((findStep w "scan").map WorkflowStep.status,
      (findStep w "assess").map WorkflowStep.status,
      (findStep w "remediate").map WorkflowStep.status) =
        (some .completed, some .completed, some .completed) ∨
     ((findStep w "scan").map WorkflowStep.status,
      (findStep w "assess").map WorkflowStep.status,
      (findStep w "remediate").map WorkflowStep.status) =
        (some .completed, some .completed, some .awaiting_approval)) := by
  subst hw
  by_cases h1 : o.trigger.error = none
  · by_cases h2 : o.scan_final.status = "completed"
    · have hscan := execute_scan_success_eq wid repo br tb md o now h1 h2
      simp only [executeWorkflow]
      rw [hscan]
      rw [if_neg (by simp)]
      by_cases h3 : extract_vulnerabilities o.scan_final = []
      · simp [executeFromAssess, execute_assessment, execute_remediation_decisions,
          complete_workflow_stage, update_step, updateFirstStep, applyStepUpdate,
          truthyStr, findStep, StepOutput.getVulnerabilities,
          StepOutput.getAssessments, h3, apply_ite]
      · by_cases h4 : o.assess.error = none
        · by_cases h5 : o.assess.assessments = []
          · simp [executeFromAssess, execute_assessment, execute_remediation_decisions,
              complete_workflow_stage, update_step, updateFirstStep, applyStepUpdate,
              truthyStr, findStep, StepOutput.getVulnerabilities,
              StepOutput.getAssessments, h3, h4, h5, apply_ite]
          · rcases hroute : routeDecisions st md.auto_remediate o.assess.assessments
              with ⟨autos, waits⟩
            by_cases hwaits : waits = []
            · by_cases hauto : autos = []
              · simp [executeFromAssess, execute_assessment,
                  execute_remediation_decisions, complete_workflow_stage,
                  update_step, updateFirstStep, applyStepUpdate, truthyStr,
                  findStep, StepOutput.getVulnerabilities,
                  StepOutput.getAssessments, h3, h4, h5, hroute, hwaits, hauto,
                  apply_ite]
              · by_cases hrem : o.remediate.error.isNone <;>
                  simp [executeFromAssess, execute_assessment,
                    execute_remediation_decisions, complete_workflow_stage,
                    update_step, updateFirstStep, applyStepUpdate, truthyStr,
                    findStep, StepOutput.getVulnerabilities,
                    StepOutput.getAssessments, h3, h4, h5, hroute, hwaits, hauto,
                    hrem, apply_ite]
            · have hlen : 0 < waits.length := List.length_pos.mpr hwaits
              by_cases hauto : autos = []
              · simp [executeFromAssess, execute_assessment,
                  execute_remediation_decisions, complete_workflow_stage,
                  update_step, updateFirstStep, applyStepUpdate, truthyStr,
                  findStep, StepOutput.getVulnerabilities,
                  StepOutput.getAssessments, h3, h4, h5, hroute, hwaits, hauto,
                  hlen, apply_ite]
              · by_cases hrem : o.remediate.error.isNone <;>
                  simp [executeFromAssess, execute_assessment,
                    execute_remediation_decisions, complete_workflow_stage,
                    update_step, updateFirstStep, applyStepUpdate, truthyStr,
                    findStep, StepOutput.getVulnerabilities,
                    StepOutput.getAssessments, h3, h4, h5, hroute, hwaits, hauto,
                    hrem, hlen, apply_ite]
        · simp [executeFromAssess, execute_assessment, execute_remediation_decisions,
            complete_workflow_stage, update_step, updateFirstStep, applyStepUpdate,
            truthyStr, findStep, StepOutput.getVulnerabilities,
            StepOutput.getAssessments, h3, h4, Option.isSome_iff_ne_none,
            apply_ite]
    · rcases herr : o.scan_final.error with _ | msg
      · simp [executeWorkflow, execute_scan, create_workflow, update_step,
          updateFirstStep, applyStepUpdate, findStep, truthyStr, h1, h2, herr,
          apply_ite]
      · by_cases hmsg : msg = "" <;>
          simp [executeWorkflow, execute_scan, create_workflow, update_step,
            updateFirstStep, applyStepUpdate, findStep, truthyStr, h1, h2, herr,
            hmsg, apply_ite]
  · rcases herr : o.trigger.error with _ | msg
    · exact absurd herr h1
    · by_cases hmsg : msg = "" <;>
        simp [executeWorkflow, execute_scan, create_workflow, update_step,
          updateFirstStep, applyStepUpdate, findStep, truthyStr, herr, hmsg,
          apply_ite]

/-- The C4 scenario oracle: one `P4` vulnerability, auto-remediated under
the default policy. -/
def c4Oracle : Oracle :=
  { trigger := { scan_id := some "s4" }
    scan_final :=
      { status := "completed"
        results := [{ vulnerabilities := [{ id := some "v4" }] }] }
    assess :=
      { assessment_id := some "a4"
        assessments :=
          [{ vulnerability_id := some "v4"
             risk_score := some { priority := some "P4" }
             severity := some "low" }]
        summary := {} }
    remediate := { fixes_generated := 1, batch_id := some "b4" } }

/-- Counterexample to C4 as stated: after a fully successful run the five
step statuses are `[COMPLETED, COMPLETED, PENDING, COMPLETED, PENDING]` —
the `remediate` step is `COMPLETED` while the `decide` step before it is
still `PENDING`, so the statuses are out of order and not a prefix of
`COMPLETED` entries followed by at most one other entry. -/
theorem C4_counterexample :
    (stepStatuses (executeWorkflow {}
        (create_workflow "w4" "acme/api" "main" "api" {} 1) c4Oracle 1).1 =
      [.completed, .completed, .pending, .completed, .pending]) ∧
    (stepOrderOk (stepStatuses (executeWorkflow {}
        (create_workflow "w4" "acme/api" "main" "api" {} 1) c4Oracle 1).1) =
      false) := by
  exact ⟨rfl, rfl⟩

/-- Witness for C4 (amended): the happy-path run leaves `decide` at
`PENDING`. -/
theorem C4_witness :
    ((findStep (executeWorkflow {}
        (create_workflow "w4w" "acme/api" "main" "api" {} 1) c4Oracle 1).1
        "decide").map WorkflowStep.status = some .pending) := by
  exact (C4_step_order {} "w4w" "acme/api" "main" "api" {} c4Oracle 1 _ rfl).1

/-! ## Claim C5, amended theorem (uses the scan-success helper above) -/

/-- After a successful scan, an assessment-collaborator error marks the
workflow `FAILED` (and the execution unit stops there). -/
theorem executeFromAssess_assess_error_status (st : Settings)
    (wid repo br tb : String) (md : Metadata) (o : Oracle) (now : Nat)
    (h3 : extract_vulnerabilities o.scan_final ≠ [])
    (h4 : o.assess.error.isSome) :
    (executeFromAssess st
      { workflow_id := wid, repository := repo, branch := br,
        status := .scanning, current_step := some "scan",
        steps :=
          [ { step_id := "scan", action := .scan, status := .completed,
              agent := some "security-scanner",
              output_data := some (.scanOut o.trigger.scan_id
                (extract_vulnerabilities o.scan_final).length
                (extract_vulnerabilities o.scan_final)),
              started_at := some now, completed_at := some now },
            { step_id := "assess", action := .assess, agent := some "risk-assessment" },
            { step_id := "decide", action := .auto_remediate, agent := some "orchestrator" },
            { step_id := "remediate", action := .auto_remediate, agent := some "auto-remediation" },
            { step_id := "complete", action := .complete, agent := some "orchestrator" } ],
        scan_id := o.trigger.scan_id,
        total_vulnerabilities := (extract_vulnerabilities o.scan_final).length,
        created_at := now, updated_at := now,
        triggered_by := tb, metadata := md } o now).1.status = .failed := by
  simp [executeFromAssess, execute_assessment, update_step, updateFirstStep,
    applyStepUpdate, truthyStr, findStep, StepOutput.getVulnerabilities,
    h3, h4, apply_ite]

/-- After a successful scan and assessment, when the policy routes
everything to auto-remediation and the remediation collaborator returns an
error, that error is swallowed: `_execute_remediation_decisions` has no
else branch for it, so no fixes are recorded, the workflow is not marked
`FAILED`, and it ends `COMPLETED`. -/
theorem executeFromAssess_remediation_swallow (st : Settings)
    (wid repo br tb : String) (md : Metadata) (o : Oracle) (now : Nat)
    (h3 : extract_vulnerabilities o.scan_final ≠ [])
    (h4 : o.assess.error = none)
    (hauto : (routeDecisions st md.auto_remediate o.assess.assessments).1 ≠ [])
    (hwaits : (routeDecisions st md.auto_remediate o.assess.assessments).2 = [])
    (hrem : o.remediate.error.isSome) :
    (executeFromAssess st
      { workflow_id := wid, repository := repo, branch := br,
        status := .scanning, current_step := some "scan",
        steps :=
          [ { step_id := "scan", action := .scan, status := .completed,
              agent := some "security-scanner",
              output_data := some (.scanOut o.trigger.scan_id
                (extract_vulnerabilities o.scan_final).length
                (extract_vulnerabilities o.scan_final)),
              started_at := some now, completed_at := some now },
            { step_id := "assess", action := .assess, agent := some "risk-assessment" },
            { step_id := "decide", action := .auto_remediate, agent := some "orchestrator" },
            { step_id := "remediate", action := .auto_remediate, agent := some "auto-remediation" },
            { step_id := "complete", action := .complete, agent := some "orchestrator" } ],
        scan_id := o.trigger.scan_id,
        total_vulnerabilities := (extract_vulnerabilities o.scan_final).length,
        created_at := now, updated_at := now,
        triggered_by := tb, metadata := md } o now).1.status = .completed ∧
    (executeFromAssess st
      { workflow_id := wid, repository := repo, branch := br,
        status := .scanning, current_step := some "scan",
        steps :=
          [ { step_id := "scan", action := .scan, status := .completed,
              agent := some "security-scanner",
              output_data := some (.scanOut o.trigger.scan_id
                (extract_vulnerabilities o.scan_final).length
                (extract_vulnerabilities o.scan_final)),
              started_at := some now, completed_at := some now },
            { step_id := "assess", action := .assess, agent := some "risk-assessment" },
            { step_id := "decide", action := .auto_remediate, agent := some "orchestrator" },
            { step_id := "remediate", action := .auto_remediate, agent := some "auto-remediation" },
            { step_id := "complete", action := .complete, agent := some "orchestrator" } ],
        scan_id := o.trigger.scan_id,
        total_vulnerabilities := (extract_vulnerabilities o.scan_final).length,
        created_at := now, updated_at := now,
        triggered_by := tb, metadata := md } o now).1.auto_remediated = 0 := by
  have hassess : o.assess.assessments ≠ [] := by
    intro hc
    rw [hc] at hauto
    simp [routeDecisions] at hauto
  rcases hroute : routeDecisions st md.auto_remediate o.assess.assessments
    with ⟨autos, waits⟩
  rw [hroute] at hauto hwaits
  rcases hre : o.remediate.error with _ | msg
  · rw [hre] at hrem
    simp at hrem
  · constructor <;>
      simp [executeFromAssess, execute_assessment, execute_remediation_decisions,
        complete_workflow_stage, update_step, updateFirstStep, applyStepUpdate,
        truthyStr, findStep, StepOutput.getVulnerabilities,
        StepOutput.getAssessments, h3, h4, hassess, hroute, hauto, hwaits, hre,
        apply_ite]

/-- Claim C5 (amended): scan-stage failures (a trigger collaborator
error, or any poll outcome other than `completed`, which covers both a
reported failure and the poll timeout) and an assessment-collaborator
error mark the Workflow `FAILED`; a remediation-batch collaborator error,
however, is silently swallowed — no fixes are recorded, yet the workflow
still ends `COMPLETED`, not `FAILED`.  And in no case does stage
execution write an Audit Log entry: the audit log and the approvals store
are unchanged by every workflow run, so a workflow that ends `FAILED` can
have no `success=false` audit entry at all. -/
theorem C5_failures_not_audited (st : Settings) (ps : ProcessState)
    (wid repo br : String) (md : Metadata) (o : Oracle) (now : Nat) :
    (runWorkflowProcess st ps wid repo br md o now).1.audit_entries =
      ps.audit_entries ∧
    (runWorkflowProcess st ps wid repo br md o now).1.approvals_store =
      ps.approvals_store ∧
    (o.trigger.error.isSome →
      (runWorkflowProcess st ps wid repo br md o now).2.1.status = .failed) ∧
    (o.trigger.error = none → o.scan_final.status ≠ "completed" →
      (runWorkflowProcess st ps wid repo br md o now).2.1.status = .failed) ∧
    (o.trigger.error = none → o.scan_final.status = "completed" →
      extract_vulnerabilities o.scan_final ≠ [] → o.assess.error.isSome →
      (runWorkflowProcess st ps wid repo br md o now).2.1.status = .failed) ∧
    (o.trigger.error = none → o.scan_final.status = "completed" →
      extract_vulnerabilities o.scan_final ≠ [] → o.assess.error = none →
      (routeDecisions st md.auto_remediate o.assess.assessments).1 ≠ [] →
      (routeDecisions st md.auto_remediate o.assess.assessments).2 = [] →
      o.remediate.error.isSome →
      (runWorkflowProcess st ps wid repo br md o now).2.1.status = .completed ∧
      (runWorkflowProcess st ps wid repo br md o now).2.1.auto_remediated = 0) := by
  refine ⟨?_, ?_, ?_, ?_, ?_, ?_⟩
  · rcases h : executeWorkflow st (create_workflow wid repo br "api" md now) o now
      with ⟨w1, b⟩
    simp [runWorkflowProcess, h]
  · rcases h : executeWorkflow st (create_workflow wid repo br "api" md now) o now
      with ⟨w1, b⟩
    simp [runWorkflowProcess, h]
  · intro herr
    have hscan :
        (execute_scan (create_workflow wid repo br "api" md now) o.trigger
          o.scan_final now).status = .failed := by
      simp [execute_scan, herr, update_step]
    simp [runWorkflowProcess, executeWorkflow, hscan]
  · intro h1 hne2
    have hscan :
        (execute_scan (create_workflow wid repo br "api" md now) o.trigger
          o.scan_final now).status = .failed := by
      simp [execute_scan, update_step, h1, hne2]
    simp [runWorkflowProcess, executeWorkflow, hscan]
  · intro h1 h2 h3 h4s
    have hscan := execute_scan_success_eq wid repo br "api" md o now h1 h2
    have hst := executeFromAssess_assess_error_status st wid repo br "api" md
      o now h3 h4s
    have hkey : (executeWorkflow st (create_workflow wid repo br "api" md now)
        o now).1.status = .failed := by
      simp only [executeWorkflow]
      rw [hscan]
      rw [if_neg (by simp)]
      exact hst
    rcases hrun : executeWorkflow st (create_workflow wid repo br "api" md now)
      o now with ⟨wfin, bs⟩
    rw [hrun] at hkey
    simp only [runWorkflowProcess, hrun]
    exact hkey
  · intro h1 h2 h3 h4 hauto hwaits hrem
    have hscan := execute_scan_success_eq wid repo br "api" md o now h1 h2
    have hsw := executeFromAssess_remediation_swallow st wid repo br "api" md
      o now h3 h4 hauto hwaits hrem
    have hkey : (executeWorkflow st (create_workflow wid repo br "api" md now)
          o now).1.status = .completed ∧
        (executeWorkflow st (create_workflow wid repo br "api" md now)
          o now).1.auto_remediated = 0 := by
      simp only [executeWorkflow]
      rw [hscan]
      rw [if_neg (by simp)]
      exact hsw
    rcases hrun : executeWorkflow st (create_workflow wid repo br "api" md now)
      o now with ⟨wfin, bs⟩
    rw [hrun] at hkey
    simp only [runWorkflowProcess, hrun]
    exact hkey

/-- The C5 swallowed-failure scenario: a `P4` vulnerability routed to
auto-remediation whose remediation-batch call fails. -/
def c5SwallowOracle : Oracle :=
  { trigger := { scan_id := some "s5" }
    scan_final :=
      { status := "completed"
        results := [{ vulnerabilities := [{ id := some "v5" }] }] }
    assess :=
      { assessment_id := some "a5"
        assessments :=
          [{ vulnerability_id := some "v5"
             risk_score := some { priority := some "P4" }
             severity := some "low" }]
        summary := {} }
    remediate := { error := some "remediation agent unreachable" } }

/-- Witness for C5 (amended): the trigger-error oracle ends `FAILED`,
while the swallowed remediation-error oracle ends `COMPLETED` with zero
fixes recorded. -/
theorem C5_witness :
    (c5Oracle.trigger.error.isSome = true) ∧
    ((runWorkflowProcess {} {} "w5w" "acme/api" "main" {} c5Oracle 4).2.1.status
      = .failed) ∧
    (c5SwallowOracle.remediate.error.isSome = true) ∧
    ((runWorkflowProcess {} {} "w5s" "acme/api" "main" {}
        c5SwallowOracle 4).2.1.status = .completed) ∧
    ((runWorkflowProcess {} {} "w5s" "acme/api" "main" {}
        c5SwallowOracle 4).2.1.auto_remediated = 0) := by
  refine ⟨rfl, ?_, rfl, ?_, ?_⟩
  · exact (C5_failures_not_audited {} {} "w5w" "acme/api" "main" {}
      c5Oracle 4).2.2.1 rfl
  · exact ((C5_failures_not_audited {} {} "w5s" "acme/api" "main" {}
      c5SwallowOracle 4).2.2.2.2.2 rfl rfl (by decide) rfl (by decide)
      (by decide) rfl).1
  · exact ((C5_failures_not_audited {} {} "w5s" "acme/api" "main" {}
      c5SwallowOracle 4).2.2.2.2.2 rfl rfl (by decide) rfl (by decide)
      (by decide) rfl).2
